import Mathlib

/-!
Verification development for the ogmash jukebox repository.

The development shallowly embeds the parts of the code the claims are
about:

* `src/_worker.js` — the Cloudflare worker that serves the music-list
  manifest (with ETag/If-None-Match validation and an edge cache) and
  audio byte ranges.  JavaScript strings are modelled as `String` /
  `List Char`, JavaScript numbers on these paths as `Int`/`Nat`
  (the worker only does integer arithmetic on sizes and offsets), and
  the R2 bucket and the edge cache as explicit values threaded through
  the functions.
* `src/src/components/jukebox/audio-data/utils.ts` — the pure buffer
  strategy; IEEE doubles are modelled as rationals `ℚ`.
* `src/src/components/jukebox/playlist/utils.ts` and
  `src/src/components/jukebox/playlist/types.ts` — the playlist
  sequencer (`PlaylistManager`); its mutable instance/React state is
  modelled as an explicit `ManagerState` record, `Math.random` as an
  explicit stream of choices.
* `src/src/components/jukebox/audio-data/index.tsx` — the
  `AudioDataManager` session; the HTML media element is modelled as a
  small record of the fields the code reads and writes.
-/

/-! ## JavaScript string helpers (modelled from the host language semantics
the worker relies on: `String.prototype.split`, `String.prototype.replace`
with a non-global regex, and `parseInt`). -/

/-- `splitOnChar sep cs` models JavaScript `s.split(sep)` for a one-character
separator: `"".split` gives `[""]`, and separators at the ends give empty
pieces. -/
def splitOnChar (sep : Char) : List Char → List (List Char)
  | [] => [[]]
  | c :: rest =>
    if c = sep then [] :: splitOnChar sep rest
    else
      match splitOnChar sep rest with
      | [] => [[c]]
      | h :: t => (c :: h) :: t

/-- `removeFirstSeq pat cs` models `s.replace(pat, "")` with a non-global
regex of the literal `pat`: only the first occurrence is removed. -/
def removeFirstSeq (pat : List Char) : List Char → List Char
  | [] => []
  | c :: cs =>
    if pat.isPrefixOf (c :: cs) then (c :: cs).drop pat.length
    else c :: removeFirstSeq pat cs

/-- Value of a list of decimal digit characters, most significant first. -/
def digitsVal (cs : List Char) : Nat :=
  cs.foldl (fun a c => 10 * a + (c.toNat - 48)) 0

/-- Parse a maximal nonempty prefix of decimal digits; `none` models `NaN`. -/
def parseNatDigits (cs : List Char) : Option Nat :=
  let ds := cs.takeWhile Char.isDigit
  if ds.isEmpty then none else some (digitsVal ds)

/-- `jsParseInt cs` models JavaScript `parseInt(s, 10)`: skip leading
whitespace, an optional sign, then read a maximal digit prefix; `none`
models `NaN` (no digits). -/
def jsParseInt (cs : List Char) : Option Int :=
  let s := cs.dropWhile fun c => c = ' ' ∨ c = '\t' ∨ c = '\n' ∨ c = '\r'
  match s with
  | '-' :: rest => (parseNatDigits rest).map fun n => -(n : Int)
  | '+' :: rest => (parseNatDigits rest).map fun n => (n : Int)
  | _ => (parseNatDigits s).map fun n => (n : Int)

/-! ## Worker model (`src/_worker.js`) -/

/-- `generateETag` (`_worker.js` lines 16–18): the weak tag
`W/"<lastModified.getTime().toString(16)>"`.  Timestamps are modelled as
`Nat` milliseconds since the epoch (the manifest's upload time is after
1970); `Nat.toDigits 16` produces the same lowercase hex digits as
JavaScript `Number.prototype.toString(16)` on a nonnegative integer. -/
def generateETag (lastModified : Nat) : String :=
  "W/\"" ++ (Nat.toDigits 16 lastModified).asString ++ "\""

/-- The manifest object `music-list.json` as stored in R2: its text and its
`uploaded` timestamp (ms). -/
structure MusicListObject where
  text : String
  uploaded : Nat
deriving DecidableEq

/-- Response of the `getMusicList` route, with exactly the headers the
worker sets.  The `Last-Modified` header is determined by the timestamp
(the source formats it with `toUTCString`); we keep the timestamp itself. -/
structure ListResponse where
  status : Nat
  contentType : Option String := none
  cacheControl : Option String := none
  etag : Option String := none
  lastModifiedHdr : Option Nat := none
  corsOrigin : Option String := none
  body : Option String := none
deriving DecidableEq

/-- `createCacheResponse` (`_worker.js` lines 20–30). -/
def createCacheResponse (content : String) (lastModified : Nat) (etag : String) :
    ListResponse :=
  { status := 200
    contentType := some "application/json"
    cacheControl := some "public, max-age=3600"
    etag := some etag
    lastModifiedHdr := some lastModified
    corsOrigin := some "*"
    body := some content }

/-- The edge cache (`caches.default`), keyed by request URL. -/
def EdgeCache : Type := List (String × ListResponse)

/-- `cache.match(cacheKey)` where the key is the request URL. -/
def cacheMatch (cache : EdgeCache) (url : String) : Option ListResponse :=
  (cache.find? fun p => p.1 == url).map fun p => p.2

/-- `cache.put(cacheKey, response)`. -/
def cachePut (cache : EdgeCache) (url : String) (r : ListResponse) : EdgeCache :=
  (url, r) :: cache

/-- The `getMusicList` route (`_worker.js` lines 57–117).  Inputs: the edge
cache, the request URL (the cache key), the manifest object as returned by
`env.ogmash_BUCKET.get('music-list.json')` (`none` = absent), the
`If-None-Match` and `If-Modified-Since` request headers, and `dateParse`
modelling `new Date(string).getTime()` (`none` = Invalid Date, whose `NaN`
comparison is false).  Returns the response and the updated cache. -/
def serveMusicList (cache : EdgeCache) (url : String)
    (manifest : Option MusicListObject) (inm ims : Option String)
    (dateParse : String → Option Int) : ListResponse × EdgeCache :=
  match cacheMatch cache url with
  | some response => (response, cache)
  | none =>
    match manifest with
    | none => ({ status := 404, body := some "File not found" }, cache)
    | some object =>
      let lastModified := object.uploaded
      let etag := generateETag lastModified
      -- `clientETag === etag || (clientLastModified && new Date(...) >= lastModified)`
      let imsCond : Bool :=
        match ims with
        | none => false
        | some s =>
          (s != "") && (match dateParse s with
            | some t => decide ((lastModified : Int) ≤ t)
            | none => false)
      if inm = some etag ∨ imsCond = true then
        let notModified : ListResponse :=
          { status := 304
            cacheControl := some "public, max-age=3600"
            etag := some etag
            lastModifiedHdr := some lastModified
            corsOrigin := some "*"
            body := none }
        (notModified, cachePut cache url notModified)
      else
        let fresh := createCacheResponse object.text lastModified etag
        (fresh, cachePut cache url fresh)

/-- Body of an audio-route response: raw bytes or an error/info text. -/
inductive RespBody where
  | bytes (data : List Nat)
  | text (s : String)
deriving DecidableEq

/-- Response of the audio route, with exactly the headers the worker sets. -/
structure AudioResponse where
  status : Nat
  contentType : Option String := none
  contentRange : Option String := none
  acceptRanges : Option String := none
  contentLength : Option String := none
  corsOrigin : Option String := none
  exposeHeaders : Option String := none
  cacheControl : Option String := none
  body : Option RespBody := none
deriving DecidableEq

/-- `env.ogmash_BUCKET.get(path, { range: { offset, length } })`, modelled
from R2's documented behaviour: the read fails (the worker's `throw` path)
when the offset is negative or past the end of the object or the length is
nonpositive; otherwise it returns the requested slice, truncated at the end
of the object. -/
def r2GetRange (bytes : List Nat) (offset length : Int) : Option (List Nat) :=
  if offset < 0 ∨ length ≤ 0 ∨ (bytes.length : Int) ≤ offset then none
  else some ((bytes.drop offset.toNat).take length.toNat)

/-- The audio route (`_worker.js` lines 119–230).  `bucket` models
`env.ogmash_BUCKET.get` on whole objects (each object its list of bytes),
`audioPath` is the URL-decoded path, `rangeHeader` the `Range` header.
When `start` or `end` parses to `NaN`, the `NaN` offset/length makes the R2
read throw and the catch block answers 500, which is the `none` parse case
below. -/
def serveAudio (bucket : String → Option (List Nat)) (audioPath : String)
    (rangeHeader : Option (List Char)) : AudioResponse :=
  match bucket audioPath with
  | none =>
    { status := 404, corsOrigin := some "*"
      body := some (RespBody.text "Audio file not found") }
  | some fileBytes =>
    let fileSize := fileBytes.length
    match rangeHeader with
    | some range =>
      let parts := splitOnChar '-' (removeFirstSeq "bytes=".data range)
      let startVal : Option Int := jsParseInt (parts.headD [])
      -- `parts[1] ? parseInt(parts[1], 10) : fileSize - 1` — an absent or
      -- empty (falsy) second part defaults to `fileSize - 1`.
      let endVal : Option Int :=
        match parts.get? 1 with
        | some p => if p.isEmpty then some ((fileSize : Int) - 1) else jsParseInt p
        | none => some ((fileSize : Int) - 1)
      match startVal, endVal with
      | some s, some e =>
        let chunksize := e - s + 1
        match r2GetRange fileBytes s chunksize with
        | none =>
          { status := 500, corsOrigin := some "*"
            body := some (RespBody.text "Error fetching audio") }
        | some data =>
          { status := 206
            contentType := some "audio/wav"
            contentRange := some
              ("bytes " ++ toString s ++ "-" ++ toString e ++ "/" ++ toString fileSize)
            acceptRanges := some "bytes"
            contentLength := some (toString chunksize)
            corsOrigin := some "*"
            exposeHeaders := some "Content-Length, Content-Range"
            cacheControl := some "public, max-age=2592000"
            body := some (RespBody.bytes data) }
      | _, _ =>
        { status := 500, corsOrigin := some "*"
          body := some (RespBody.text "Error fetching audio") }
    | none =>
      { status := 200
        contentType := some "audio/wav"
        contentLength := some (toString fileSize)
        corsOrigin := some "*"
        exposeHeaders := some "Content-Length, Content-Range"
        acceptRanges := some "bytes"
        cacheControl := some "public, max-age=2592000"
        body := some (RespBody.bytes fileBytes) }

/-! ## Theorems about the audio range route (claim C1) -/

/-- The bucket used for concrete checks of the audio route: a single
10-byte object `a.wav` whose bytes are `0,…,9`. -/
def bucketA : String → Option (List Nat) := fun p =>
  if p = "a.wav" then some (List.range 10) else none

/-- C1, counterexample to the claimed clamping: the worker never clamps a
parsed `end` to `size - 1`.  For the 10-byte blob `a.wav` and the header
`Range: bytes=0-20`, the code computes `end = 20` and `chunksize = 21`
unchanged and answers with `Content-Range: bytes 0-20/10` and
`Content-Length: 21`, not the clamped `bytes 0-9/10` / `10` the claim
requires. -/
theorem serveAudio_no_end_clamp :
    (serveAudio bucketA "a.wav" (some ("bytes=0-20".data))).contentRange
        = some "bytes 0-20/10"
      ∧ (serveAudio bucketA "a.wav" (some ("bytes=0-20".data))).contentRange
        ≠ some "bytes 0-9/10"
      ∧ (serveAudio bucketA "a.wav" (some ("bytes=0-20".data))).contentLength
        = some "21"
      ∧ (serveAudio bucketA "a.wav" (some ("bytes=0-20".data))).contentLength
        ≠ some "10" := by
  refine ⟨by decide, by decide, by decide, by decide⟩

/-- C1 as amended: for an audio request resolving to a blob of `size` bytes
with a `Range: bytes=start-end` header, the worker parses `start`, defaults
`end` to `size - 1` when the part after `-` is absent or empty (but does
not clamp a supplied `end`), computes `chunksize = end - start + 1`,
fetches exactly that slice, and answers 206 with
`Content-Range: bytes start-end/size`, `Content-Length: chunksize` and
`Accept-Ranges: bytes`; for all valid `0 ≤ start ≤ end < size` the body is
exactly `end - start + 1` bytes. -/
theorem serveAudio_range_correct :
    (∀ (bucket : String → Option (List Nat)) (path : String)
       (fileBytes : List Nat) (header p0 p1 : List Char) (start e : Nat),
       bucket path = some fileBytes →
       splitOnChar '-' (removeFirstSeq "bytes=".data header) = [p0, p1] →
       jsParseInt p0 = some (start : Int) →
       p1.isEmpty = false →
       jsParseInt p1 = some (e : Int) →
       start ≤ e → e < fileBytes.length →
       serveAudio bucket path (some header) =
         { status := 206
           contentType := some "audio/wav"
           contentRange := some ("bytes " ++ toString (start : Int) ++ "-"
             ++ toString (e : Int) ++ "/" ++ toString fileBytes.length)
           acceptRanges := some "bytes"
           contentLength := some (toString ((e : Int) - (start : Int) + 1))
           corsOrigin := some "*"
           exposeHeaders := some "Content-Length, Content-Range"
           cacheControl := some "public, max-age=2592000"
           body := some (RespBody.bytes
             ((fileBytes.drop start).take (e - start + 1))) }
       ∧ ((fileBytes.drop start).take (e - start + 1)).length = e - start + 1)
  ∧ (∀ (bucket : String → Option (List Nat)) (path : String)
       (fileBytes : List Nat) (header p0 : List Char) (start : Nat),
       bucket path = some fileBytes →
       splitOnChar '-' (removeFirstSeq "bytes=".data header) = [p0, []] →
       jsParseInt p0 = some (start : Int) →
       start < fileBytes.length →
       serveAudio bucket path (some header) =
         { status := 206
           contentType := some "audio/wav"
           contentRange := some ("bytes " ++ toString (start : Int) ++ "-"
             ++ toString ((fileBytes.length : Int) - 1) ++ "/"
             ++ toString fileBytes.length)
           acceptRanges := some "bytes"
           contentLength := some
             (toString ((fileBytes.length : Int) - 1 - (start : Int) + 1))
           corsOrigin := some "*"
           exposeHeaders := some "Content-Length, Content-Range"
           cacheControl := some "public, max-age=2592000"
           body := some (RespBody.bytes
             ((fileBytes.drop start).take (fileBytes.length - start))) }
       ∧ ((fileBytes.drop start).take (fileBytes.length - start)).length
           = fileBytes.length - start) := by
  constructor
  · intro bucket path fileBytes header p0 p1 start e hb hsplit hp0 hne hp1 hse hes
    have hcond : ¬((start : Int) < 0 ∨ (e : Int) - (start : Int) + 1 ≤ 0
        ∨ (fileBytes.length : Int) ≤ (start : Int)) := by omega
    have h1 : ((start : Int)).toNat = start := by omega
    have h2 : ((e : Int) - (start : Int) + 1).toNat = e - start + 1 := by omega
    constructor
    · simp only [serveAudio, hb, hsplit, List.headD, List.get?, hp0, hne,
        Bool.false_eq_true, if_false, hp1, r2GetRange, if_neg hcond, h1, h2]
    · simp only [List.length_take, List.length_drop]
      omega
  · intro bucket path fileBytes header p0 start hb hsplit hp0 hss
    have hcond : ¬((start : Int) < 0
        ∨ (fileBytes.length : Int) - 1 - (start : Int) + 1 ≤ 0
        ∨ (fileBytes.length : Int) ≤ (start : Int)) := by omega
    have h1 : ((start : Int)).toNat = start := by omega
    have h2 : ((fileBytes.length : Int) - 1 - (start : Int) + 1).toNat
        = fileBytes.length - start := by omega
    constructor
    · simp only [serveAudio, hb, hsplit, List.headD, List.get?, hp0,
        List.isEmpty_nil, if_true, r2GetRange, if_neg hcond, h1, h2]
    · simp only [List.length_take, List.length_drop]
      omega

/-- Witness for `serveAudio_range_correct` at the concrete blob `a.wav`
(10 bytes) and headers `bytes=2-5` and `bytes=3-`. -/
theorem serveAudio_range_correct_witness :
    (serveAudio bucketA "a.wav" (some ("bytes=2-5".data))).status = 206
      ∧ ((List.range 10).drop 2).take 4 = [2, 3, 4, 5]
      ∧ (serveAudio bucketA "a.wav" (some ("bytes=3-".data))).contentRange
        = some "bytes 3-9/10" := by
  have h1 := (serveAudio_range_correct.1 bucketA "a.wav" (List.range 10)
    ("bytes=2-5".data) ['2'] ['5'] 2 5 (by decide) (by decide) (by decide)
    (by decide) (by decide) (by decide) (by decide)).1
  have h2 := (serveAudio_range_correct.2 bucketA "a.wav" (List.range 10)
    ("bytes=3-".data) ['3'] 3 (by decide) (by decide) (by decide)
    (by decide)).1
  refine ⟨?_, by decide, ?_⟩
  · rw [h1]
  · rw [h2]
    decide

/-! ## Theorems about the `getMusicList` route (claims C2 and C10) -/

/-- A helper: the edge cache finds the entry just stored for a URL. -/
theorem cacheMatch_cachePut (cache : EdgeCache) (url : String) (r : ListResponse) :
    cacheMatch (cachePut cache url r) url = some r := by
  simp [cacheMatch, cachePut, List.find?]

/-- C2: on a `getMusicList` request that is not already answered by the edge
cache and whose manifest blob exists, the worker computes the weak ETag
`W/"<hex of the upload timestamp>"`, and whenever `If-None-Match` equals
that ETag it answers 304 with an empty body — for every value (or absence)
of `If-Modified-Since` and every semantics of HTTP-date parsing. -/
theorem serveMusicList_304_on_etag_match (cache : EdgeCache) (url : String)
    (m : MusicListObject) (inm ims : Option String)
    (dateParse : String → Option Int)
    (hc : cacheMatch cache url = none)
    (him : inm = some (generateETag m.uploaded)) :
    (serveMusicList cache url (some m) inm ims dateParse).1.status = 304
      ∧ (serveMusicList cache url (some m) inm ims dateParse).1.body = none
      ∧ (serveMusicList cache url (some m) inm ims dateParse).1.etag
        = some ("W/\"" ++ (Nat.toDigits 16 m.uploaded).asString ++ "\"") := by
  have hcond : inm = some (generateETag m.uploaded)
      ∨ (match ims with
          | none => false
          | some s =>
            (s != "") && (match dateParse s with
              | some t => decide ((m.uploaded : Int) ≤ t)
              | none => false)) = true := Or.inl him
  simp only [serveMusicList, hc, if_pos hcond]
  simp [generateETag]

/-- Witness for `serveMusicList_304_on_etag_match` on an empty cache and a
concrete manifest uploaded at timestamp 1234 (hex `4d2`). -/
theorem serveMusicList_304_on_etag_match_witness :
    (serveMusicList [] "https://x/getMusicList" (some ⟨"[]", 1234⟩)
        (some "W/\"4d2\"") (some "Thu, 01 Jan 1970 00:00:01 GMT")
        (fun _ => some 1000)).1.status = 304
      ∧ (serveMusicList [] "https://x/getMusicList" (some ⟨"[]", 1234⟩)
        (some "W/\"4d2\"") (some "Thu, 01 Jan 1970 00:00:01 GMT")
        (fun _ => some 1000)).1.body = none := by
  have h := serveMusicList_304_on_etag_match [] "https://x/getMusicList"
    ⟨"[]", 1234⟩ (some "W/\"4d2\"") (some "Thu, 01 Jan 1970 00:00:01 GMT")
    (fun _ => some 1000) (by rfl) (by rfl)
  exact ⟨h.1, h.2.1⟩

/-- C10: after answering a conditional `getMusicList` request with 304, the
worker stores that body-less 304 in the edge cache under the request URL;
every later `getMusicList` request for the same URL — whatever its
`If-None-Match` / `If-Modified-Since` headers, and even if the bucket's
manifest has changed or vanished — is answered with that cached body-less
304 and leaves the cache unchanged. -/
theorem serveMusicList_caches_304 (cache : EdgeCache) (url : String)
    (m : MusicListObject) (inm ims : Option String)
    (dateParse : String → Option Int)
    (hc : cacheMatch cache url = none)
    (him : inm = some (generateETag m.uploaded)) :
    (serveMusicList cache url (some m) inm ims dateParse).1.status = 304
      ∧ (serveMusicList cache url (some m) inm ims dateParse).1.body = none
      ∧ cacheMatch (serveMusicList cache url (some m) inm ims dateParse).2 url
        = some (serveMusicList cache url (some m) inm ims dateParse).1
      ∧ ∀ (manifest2 : Option MusicListObject) (inm2 ims2 : Option String)
          (dateParse2 : String → Option Int),
          serveMusicList (serveMusicList cache url (some m) inm ims dateParse).2
              url manifest2 inm2 ims2 dateParse2
            = ((serveMusicList cache url (some m) inm ims dateParse).1,
               (serveMusicList cache url (some m) inm ims dateParse).2) := by
  have hcond : inm = some (generateETag m.uploaded)
      ∨ (match ims with
          | none => false
          | some s =>
            (s != "") && (match dateParse s with
              | some t => decide ((m.uploaded : Int) ≤ t)
              | none => false)) = true := Or.inl him
  simp only [serveMusicList, hc, if_pos hcond]
  refine ⟨trivial, trivial, cacheMatch_cachePut cache url _, ?_⟩
  intro manifest2 inm2 ims2 dateParse2
  simp only [serveMusicList, cacheMatch_cachePut]

/-- Witness for `serveMusicList_caches_304`: the cached 304 is then served
to an unconditional request (no validators at all) instead of the manifest
body. -/
theorem serveMusicList_caches_304_witness :
    (serveMusicList
        (serveMusicList [] "https://x/getMusicList" (some ⟨"[]", 1234⟩)
          (some "W/\"4d2\"") none (fun _ => none)).2
        "https://x/getMusicList" (some ⟨"[]", 1234⟩) none none
        (fun _ => none)).1.status = 304
      ∧ (serveMusicList
        (serveMusicList [] "https://x/getMusicList" (some ⟨"[]", 1234⟩)
          (some "W/\"4d2\"") none (fun _ => none)).2
        "https://x/getMusicList" (some ⟨"[]", 1234⟩) none none
        (fun _ => none)).1.body = none := by
  have h := serveMusicList_caches_304 [] "https://x/getMusicList"
    ⟨"[]", 1234⟩ (some "W/\"4d2\"") none (fun _ => none) (by rfl) (by rfl)
  have h2 := h.2.2.2 (some ⟨"[]", 1234⟩) none none (fun _ => none)
  rw [h2]
  exact ⟨h.1, h.2.1⟩

/-! ## Buffer strategy model (`audio-data/utils.ts`, claim C3) -/

/-- `NetworkStats` (`audio-data/types.ts`); doubles modelled as `ℚ`. -/
structure NetworkStats where
  downlink : ℚ
  effectiveType : String
  rtt : ℚ
  bufferFillRate : ℚ
  lastRebuffer : ℚ

/-- `BufferStrategy` (`audio-data/types.ts`). -/
structure BufferStrategy where
  minBuffer : ℚ
  maxBuffer : ℚ
  rebufferPoint : ℚ
  reason : String
deriving DecidableEq

/-- `Number.prototype.toFixed(1)` per the ECMAScript specification: the
sign, then the integer `n` minimizing `|n / 10 - |x||` (ties to the larger
`n`), printed with one digit after the point. -/
def toFixed1 (q : ℚ) : String :=
  let sign := if q < 0 then "-" else ""
  let n := (Int.floor (10 * |q| + 1 / 2)).toNat
  sign ++ toString (n / 10) ++ "." ++ toString (n % 10)

/-- `NETWORK_THRESHOLDS` (`audio-data/utils.ts` lines 4–7). -/
def NETWORK_THRESHOLDS_FAST : ℚ := 5

/-- `NETWORK_THRESHOLDS.MEDIUM`. -/
def NETWORK_THRESHOLDS_MEDIUM : ℚ := 2

/-- `calculateBufferStrategy` (`audio-data/utils.ts` lines 9–34). -/
def calculateBufferStrategy (networkStats : NetworkStats) : BufferStrategy :=
  let downlink := networkStats.downlink
  if downlink > NETWORK_THRESHOLDS_FAST then
    { minBuffer := 2, maxBuffer := 10, rebufferPoint := 3
      reason := "Fast network detected: " ++ toFixed1 downlink ++ " Mbps" }
  else if downlink > NETWORK_THRESHOLDS_MEDIUM then
    { minBuffer := 5, maxBuffer := 15, rebufferPoint := 5
      reason := "Medium network detected: " ++ toFixed1 downlink ++ " Mbps" }
  else
    { minBuffer := 15, maxBuffer := 30, rebufferPoint := 10
      reason := "Slow network detected: " ++ toFixed1 downlink ++ " Mbps" }

/-- Concrete stats with the given downlink, for the claim's examples. -/
def statsWithDownlink (d : ℚ) : NetworkStats :=
  { downlink := d, effectiveType := "4g", rtt := 50, bufferFillRate := 0
    lastRebuffer := 0 }

/-- C3: `calculateBufferStrategy` is exactly the three-tier policy on
`downlink` (fast `> 5` → 2/10/3, medium `2 <` · `≤ 5` → 5/15/5, slow
`≤ 2` → 15/30/10); consequently `rebufferPoint` is monotone non-increasing
in `downlink`, and the claim's three examples hold. -/
theorem calculateBufferStrategy_three_tier :
    (∀ ns : NetworkStats,
      (5 < ns.downlink →
        calculateBufferStrategy ns =
          { minBuffer := 2, maxBuffer := 10, rebufferPoint := 3
            reason := "Fast network detected: " ++ toFixed1 ns.downlink ++ " Mbps" })
      ∧ (2 < ns.downlink → ns.downlink ≤ 5 →
        calculateBufferStrategy ns =
          { minBuffer := 5, maxBuffer := 15, rebufferPoint := 5
            reason := "Medium network detected: " ++ toFixed1 ns.downlink ++ " Mbps" })
      ∧ (ns.downlink ≤ 2 →
        calculateBufferStrategy ns =
          { minBuffer := 15, maxBuffer := 30, rebufferPoint := 10
            reason := "Slow network detected: " ++ toFixed1 ns.downlink ++ " Mbps" }))
    ∧ (∀ a b : NetworkStats, a.downlink ≤ b.downlink →
        (calculateBufferStrategy b).rebufferPoint
          ≤ (calculateBufferStrategy a).rebufferPoint)
    ∧ (calculateBufferStrategy (statsWithDownlink 10)).rebufferPoint = 3
    ∧ (calculateBufferStrategy (statsWithDownlink 3)).rebufferPoint = 5
    ∧ (calculateBufferStrategy (statsWithDownlink 1)).rebufferPoint = 10 := by
  refine ⟨?_, ?_, by decide, by decide, by decide⟩
  · intro ns
    refine ⟨fun h5 => ?_, fun h2 h5 => ?_, fun h2 => ?_⟩
    · simp only [calculateBufferStrategy, NETWORK_THRESHOLDS_FAST,
        NETWORK_THRESHOLDS_MEDIUM, if_pos h5]
    · rw [calculateBufferStrategy]
      rw [if_neg (by simpa [NETWORK_THRESHOLDS_FAST] using not_lt.mpr h5),
        if_pos (by simpa [NETWORK_THRESHOLDS_MEDIUM] using h2)]
    · rw [calculateBufferStrategy]
      rw [if_neg (by simp [NETWORK_THRESHOLDS_FAST]; linarith),
        if_neg (by simpa [NETWORK_THRESHOLDS_MEDIUM] using not_lt.mpr h2)]
  · intro a b hab
    simp only [calculateBufferStrategy, NETWORK_THRESHOLDS_FAST,
      NETWORK_THRESHOLDS_MEDIUM]
    split_ifs <;> norm_num <;> linarith

/-- Witness for `calculateBufferStrategy_three_tier`: the medium tier at
downlink 3 Mbps, and monotonicity between 3 and 10 Mbps. -/
theorem calculateBufferStrategy_three_tier_witness :
    calculateBufferStrategy (statsWithDownlink 3) =
      { minBuffer := 5, maxBuffer := 15, rebufferPoint := 5
        reason := "Medium network detected: " ++ toFixed1 (3 : ℚ) ++ " Mbps" }
    ∧ (calculateBufferStrategy (statsWithDownlink 10)).rebufferPoint
      ≤ (calculateBufferStrategy (statsWithDownlink 3)).rebufferPoint := by
  constructor
  · exact (calculateBufferStrategy_three_tier.1 (statsWithDownlink 3)).2.1
      (by decide) (by decide)
  · exact calculateBufferStrategy_three_tier.2.1 (statsWithDownlink 3)
      (statsWithDownlink 10) (by decide)

/-! ## Playlist sequencer model (`playlist/utils.ts`, `playlist/types.ts`) -/

/-- `PlaybackMode` (`playlist/types.ts` line 3). -/
inductive PlaybackMode where
  | normal
  | shuffle
  | preview
deriving DecidableEq

/-- `PlaylistItem` (`playlist/types.ts` lines 5–11). -/
structure PlaylistItem where
  id : String
  path : String
  songName : String
  genre : String
  version : String
deriving DecidableEq

/-- `getNextSongIndex` (`playlist/utils.ts` lines 3–14).  The `mode`
parameter is accepted and ignored, exactly as in the source; `null` is
`none`.  JavaScript numbers on this path are integers. -/
def getNextSongIndex (currentIndex totalSongs : Int) (mode : PlaybackMode)
    (repeatFlag : Bool) : Option Int :=
  if totalSongs - 1 ≤ currentIndex then
    if repeatFlag then some 0 else none
  else
    some (currentIndex + 1)

/-- The `PlaylistManager`'s combined mutable data: its React state
(`items`, `currentIndex`, `isPlaying`, `mode`, `repeat`, `currentSong`)
together with the instance fields `shuffleOrder` and `mounted`
(`playlist/types.ts` lines 46–70).  The source's `repeat` field is named
`repeatFlag` because `repeat` is reserved in Lean. -/
structure ManagerState where
  items : List PlaylistItem
  currentIndex : Nat
  isPlaying : Bool
  mode : PlaybackMode
  repeatFlag : Bool
  currentSong : Option String
  shuffleOrder : List Nat
  mounted : Bool
deriving DecidableEq

/-- `Array.prototype.findIndex` / `indexOf`, as an `Option` (the source's
`-1` sentinel is `none`). -/
def jsFindIndex (p : α → Bool) : List α → Option Nat
  | [] => none
  | a :: l => if p a then some 0 else (jsFindIndex p l).map (· + 1)

/-- `getNextShuffleIndex` (`playlist/types.ts` lines 336–340):
`shuffleOrder[(findIndex(currentIndex) + 1) % shuffleOrder.length]`.
When the order is empty the source indexes with `NaN` and gets
`undefined` (`none` here); when `currentIndex` is not in the order,
`findIndex` gives `-1` and `(-1 + 1) % len = 0`, folded into the
`none ↦ 0` case below. -/
def getNextShuffleIndex (s : ManagerState) : Option Nat :=
  if s.shuffleOrder.length = 0 then none
  else
    let nextPos :=
      match jsFindIndex (fun i => i == s.currentIndex) s.shuffleOrder with
      | some p => (p + 1) % s.shuffleOrder.length
      | none => 0
    s.shuffleOrder.get? nextPos

/-- The common tail of `handleSongEnd` (`playlist/types.ts` lines 164–187):
look up `items[nextIndex]`; if it exists, commit the new index and song and
keep playing, otherwise change nothing. -/
def advanceTo (s : ManagerState) (nextIndex : Nat) : ManagerState :=
  match s.items.get? nextIndex with
  | none => s
  | some song =>
    { s with currentIndex := nextIndex, currentSong := some song.songName
             isPlaying := true }

/-- `handleSongEnd` (`playlist/types.ts` lines 139–188).  In shuffle mode
the walk is circular with no repeat check; in normal/preview mode the end
of the playlist stops playback unless `repeat` is set.  (The audio-manager
side effects `loadAudio`/`play` live outside this state.) -/
def handleSongEnd (s : ManagerState) : ManagerState :=
  if s.mounted = false then s
  else if s.mode = PlaybackMode.shuffle then
    match getNextShuffleIndex s with
    | none => s
    | some nextIndex => advanceTo s nextIndex
  else
    if s.items.length ≤ s.currentIndex + 1 then
      if s.repeatFlag then advanceTo s 0
      else { s with isPlaying := false }
    else advanceTo s (s.currentIndex + 1)

/-- Swap of two positions of a list, the JavaScript destructuring
`[a[i], a[j]] = [a[j], a[i]]`: both old values are read first, then
written. -/
def listSwap (l : List α) (i j : Nat) : List α :=
  match l.get? i, l.get? j with
  | some vi, some vj => (l.set i vj).set j vi
  | _, _ => l

/-- The Fisher–Yates loop of `initializeShuffleOrder` (`playlist/types.ts`
lines 330–333), counting `i` down; `rand i` models the random draw at loop
index `i`, reduced `mod (i + 1)` so that, like
`Math.floor(Math.random() * (i + 1))`, it lies in `[0, i]`. -/
def fyLoop (rand : Nat → Nat) : Nat → List Nat → List Nat
  | 0, l => l
  | i + 1, l => fyLoop rand i (listSwap l (i + 1) (rand (i + 1) % (i + 2)))

/-- `initializeShuffleOrder` (`playlist/types.ts` lines 328–334):
`Array.from({length: n}, (_, i) => i)` shuffled in place by Fisher–Yates. -/
def initializeShuffleOrder (n : Nat) (rand : Nat → Nat) : List Nat :=
  fyLoop rand (n - 1) (List.range n)

/-- `jumpToIndex` (`playlist/types.ts` lines 239–270): validate the index,
commit it, and in shuffle mode rotate the shuffle order so the selected
index becomes its head. -/
def jumpToIndex (s : ManagerState) (index : Int) : ManagerState :=
  if index < 0 ∨ (s.items.length : Int) ≤ index then s
  else
    let i := index.toNat
    let s1 :=
      match s.items.get? i with
      | some song =>
        { s with currentIndex := i, currentSong := some song.songName
                 isPlaying := true }
      | none => s
    if s1.mode = PlaybackMode.shuffle then
      match jsFindIndex (fun x => x == i) s1.shuffleOrder with
      | some k =>
        { s1 with shuffleOrder :=
            s1.shuffleOrder.drop k ++ s1.shuffleOrder.take k }
      | none => s1
    else s1

/-- `handleRepeatChange` (`playlist/types.ts` lines 272–274): a bare
`updateState({ repeat })`, which `updateState` applies only when mounted. -/
def handleRepeatChange (s : ManagerState) (r : Bool) : ManagerState :=
  if s.mounted then { s with repeatFlag := r } else s

/-- `handleModeChange` (`playlist/types.ts` lines 276–326).  Switching to
shuffle regenerates the order (this instance-field write happens even when
unmounted) and moves to its head; other modes reset the index to 0.
`none` models the `TypeError` the source throws reading
`firstSong.songName` when the playlist is empty in the shuffle branch.
The audio-manager `pause`/`cleanup` calls and the delayed preview
`startPlaylist` live outside this state. -/
def handleModeChange (s : ManagerState) (newMode : PlaybackMode)
    (rand : Nat → Nat) : Option ManagerState :=
  if newMode = PlaybackMode.shuffle then
    let order := initializeShuffleOrder s.items.length rand
    match order.head? with
    | none => none
    | some firstIndex =>
      match s.items.get? firstIndex with
      | none => none
      | some firstSong =>
        let s1 := { s with shuffleOrder := order }
        some (if s1.mounted then
          { s1 with mode := newMode, isPlaying := false
                    currentIndex := firstIndex
                    currentSong := some firstSong.songName }
        else s1)
  else
    some (if s.mounted then
      { s with mode := newMode, isPlaying := false, currentIndex := 0
               currentSong := (s.items.get? 0).map (fun it => it.songName) }
    else s)

/-! ## Theorems about sequential advancement (claim C4) -/

/-- Concrete three-item playlist used by the playlist examples. -/
def itemsABC : List PlaylistItem :=
  [⟨"1", "a.wav", "A", "rock", "v1"⟩,
   ⟨"2", "b.wav", "B", "rock", "v1"⟩,
   ⟨"3", "c.wav", "C", "rock", "v1"⟩]

/-- C4: in sequential (normal) mode the next index is `currentIndex + 1`
below the last index; at or past the last index it is `0` when `repeat` is
on and "stop" (`null` from `getNextSongIndex`; `isPlaying := false` with
an unchanged index in `handleSongEnd`) when `repeat` is off — in
particular, with 3 items at index 2, repeat off stops and repeat on gives
index 0. -/
theorem nextSongIndex_sequential :
    (∀ (ci ts : Int) (m : PlaybackMode) (r : Bool),
      (ci < ts - 1 → getNextSongIndex ci ts m r = some (ci + 1))
      ∧ (ts - 1 ≤ ci → getNextSongIndex ci ts m r
          = if r then some 0 else none))
    ∧ (∀ m : PlaybackMode, getNextSongIndex 2 3 m false = none)
    ∧ (∀ m : PlaybackMode, getNextSongIndex 2 3 m true = some 0)
    ∧ (∀ s : ManagerState, s.mounted = true → s.mode = PlaybackMode.normal →
        (s.currentIndex + 1 < s.items.length →
          (handleSongEnd s).currentIndex = s.currentIndex + 1
          ∧ (handleSongEnd s).isPlaying = true)
        ∧ (s.items.length ≤ s.currentIndex + 1 → s.repeatFlag = false →
            handleSongEnd s = { s with isPlaying := false })
        ∧ (s.items.length ≤ s.currentIndex + 1 → s.repeatFlag = true →
            s.items ≠ [] →
            (handleSongEnd s).currentIndex = 0
            ∧ (handleSongEnd s).isPlaying = true)) := by
  refine ⟨?_, fun m => by simp [getNextSongIndex], fun m => by simp [getNextSongIndex], ?_⟩
  · intro ci ts m r
    constructor
    · intro h
      rw [getNextSongIndex, if_neg (by omega)]
    · intro h
      rw [getNextSongIndex, if_pos h]
  · intro s hm hmode
    have hsh : ¬s.mode = PlaybackMode.shuffle := by rw [hmode]; intro h; cases h
    refine ⟨?_, ?_, ?_⟩
    · intro hlt
      obtain ⟨song, hsong⟩ : ∃ song, s.items.get? (s.currentIndex + 1) = some song := by
        rw [List.get?_eq_get (by omega)]
        exact ⟨_, rfl⟩
      rw [handleSongEnd, if_neg (by rw [hm]; intro h; cases h), if_neg hsh,
        if_neg (by omega), advanceTo, hsong]
      exact ⟨rfl, rfl⟩
    · intro hge hrep
      rw [handleSongEnd, if_neg (by rw [hm]; intro h; cases h), if_neg hsh,
        if_pos hge, hrep]
      rfl
    · intro hge hrep hne
      obtain ⟨song, hsong⟩ : ∃ song, s.items.get? 0 = some song := by
        rw [List.get?_eq_get (List.length_pos.mpr hne)]
        exact ⟨_, rfl⟩
      rw [handleSongEnd, if_neg (by rw [hm]; intro h; cases h), if_neg hsh,
        if_pos hge, hrep, if_pos rfl, advanceTo, hsong]
      exact ⟨rfl, rfl⟩

/-- Witness for `nextSongIndex_sequential`: the claim's 3-item playlist at
its last index, repeat off then repeat on, both through the pure helper and
through `handleSongEnd` on a concrete state. -/
theorem nextSongIndex_sequential_witness :
    getNextSongIndex 2 3 PlaybackMode.normal false = none
    ∧ getNextSongIndex 2 3 PlaybackMode.normal true = some 0
    ∧ handleSongEnd
        { items := itemsABC, currentIndex := 2, isPlaying := true
          mode := PlaybackMode.normal, repeatFlag := false
          currentSong := some "C", shuffleOrder := [], mounted := true }
      = { items := itemsABC, currentIndex := 2, isPlaying := false
          mode := PlaybackMode.normal, repeatFlag := false
          currentSong := some "C", shuffleOrder := [], mounted := true }
    ∧ (handleSongEnd
        { items := itemsABC, currentIndex := 2, isPlaying := true
          mode := PlaybackMode.normal, repeatFlag := true
          currentSong := some "C", shuffleOrder := [], mounted := true }).currentIndex
      = 0 := by
  refine ⟨nextSongIndex_sequential.2.1 PlaybackMode.normal,
    nextSongIndex_sequential.2.2.1 PlaybackMode.normal, ?_, ?_⟩
  · exact (nextSongIndex_sequential.2.2.2
      { items := itemsABC, currentIndex := 2, isPlaying := true
        mode := PlaybackMode.normal, repeatFlag := false
        currentSong := some "C", shuffleOrder := [], mounted := true }
      rfl rfl).2.1 (by decide) rfl
  · exact ((nextSongIndex_sequential.2.2.2
      { items := itemsABC, currentIndex := 2, isPlaying := true
        mode := PlaybackMode.normal, repeatFlag := true
        currentSong := some "C", shuffleOrder := [], mounted := true }
      rfl rfl).2.2 (by decide) rfl (by decide)).1

/-! ## Theorems about shuffle advancement (claim C5) -/

/-- C5 as amended: on end-of-track in shuffle mode the manager advances to
`shuffleOrder[(position_of(currentIndex) + 1) mod shuffleOrder.length]`
and keeps playing — for every value of `repeat`.  The walk always wraps
circularly; there is no stop at the end of the permutation. -/
theorem shuffle_next_wraps (s : ManagerState) (p k : Nat)
    (hm : s.mounted = true) (hmode : s.mode = PlaybackMode.shuffle)
    (hp : jsFindIndex (fun i => i == s.currentIndex) s.shuffleOrder = some p)
    (hk : s.shuffleOrder.get? ((p + 1) % s.shuffleOrder.length) = some k)
    (hitem : k < s.items.length) :
    (handleSongEnd s).currentIndex = k
      ∧ (handleSongEnd s).isPlaying = true := by
  have hlen : ¬s.shuffleOrder.length = 0 := by
    intro h0
    rw [List.length_eq_zero] at h0
    rw [h0] at hp
    simp [jsFindIndex] at hp
  have hg : getNextShuffleIndex s = some k := by
    rw [getNextShuffleIndex, if_neg hlen, hp]
    exact hk
  obtain ⟨song, hsong⟩ : ∃ song, s.items.get? k = some song := by
    rw [List.get?_eq_get hitem]
    exact ⟨_, rfl⟩
  rw [handleSongEnd, if_neg (by rw [hm]; intro h; cases h), if_pos hmode, hg]
  show (advanceTo s k).currentIndex = k ∧ (advanceTo s k).isPlaying = true
  rw [advanceTo, hsong]
  exact ⟨rfl, rfl⟩

/-- Witness for `shuffle_next_wraps`: order `[2,0,1]` at current index 2
(position 0); the next track is `order[1] = 0`. -/
theorem shuffle_next_wraps_witness :
    (handleSongEnd
        { items := itemsABC, currentIndex := 2, isPlaying := true
          mode := PlaybackMode.shuffle, repeatFlag := false
          currentSong := some "C", shuffleOrder := [2, 0, 1]
          mounted := true }).currentIndex = 0
    ∧ (handleSongEnd
        { items := itemsABC, currentIndex := 2, isPlaying := true
          mode := PlaybackMode.shuffle, repeatFlag := false
          currentSong := some "C", shuffleOrder := [2, 0, 1]
          mounted := true }).isPlaying = true :=
  shuffle_next_wraps
    { items := itemsABC, currentIndex := 2, isPlaying := true
      mode := PlaybackMode.shuffle, repeatFlag := false
      currentSong := some "C", shuffleOrder := [2, 0, 1], mounted := true }
    0 0 rfl rfl (by decide) (by decide) (by decide)

/-- C5, counterexample to the claimed stop: with order `[2,0,1]`, current
index 1 (the LAST element of the permutation) and `repeat` off, the claim
says the wrap past the start of the permutation stops playback; the code
instead wraps to `order[0] = 2` and keeps `isPlaying` true, leaving the
state otherwise unchanged except for the committed song. -/
theorem shuffle_no_stop_counterexample :
    (handleSongEnd
        { items := itemsABC, currentIndex := 1, isPlaying := true
          mode := PlaybackMode.shuffle, repeatFlag := false
          currentSong := some "B", shuffleOrder := [2, 0, 1]
          mounted := true }).isPlaying = true
    ∧ (handleSongEnd
        { items := itemsABC, currentIndex := 1, isPlaying := true
          mode := PlaybackMode.shuffle, repeatFlag := false
          currentSong := some "B", shuffleOrder := [2, 0, 1]
          mounted := true }).currentIndex = 2
    ∧ handleSongEnd
        { items := itemsABC, currentIndex := 1, isPlaying := true
          mode := PlaybackMode.shuffle, repeatFlag := false
          currentSong := some "B", shuffleOrder := [2, 0, 1]
          mounted := true }
      ≠ { items := itemsABC, currentIndex := 1, isPlaying := false
          mode := PlaybackMode.shuffle, repeatFlag := false
          currentSong := some "B", shuffleOrder := [2, 0, 1]
          mounted := true } := by
  refine ⟨by decide, by decide, by decide⟩

/-! ## Permutation lemmas for the shuffle order (claim C6) -/

/-- Putting `b` in front after overwriting its old position `m` with `x`
permutes the list with `x` in front. -/
theorem cons_set_perm (b x : α) :
    ∀ (xs : List α) (m : Nat), xs.get? m = some b →
      (b :: xs.set m x).Perm (x :: xs) := by
  intro xs
  induction xs with
  | nil => intro m h; cases h
  | cons y t ih =>
    intro m h
    cases m with
    | zero =>
      cases h
      exact List.Perm.swap _ _ _
    | succ m =>
      have ht : t.get? m = some b := h
      have h1 : (b :: y :: t.set m x).Perm (y :: b :: t.set m x) :=
        List.Perm.swap _ _ _
      have h2 : (y :: b :: t.set m x).Perm (y :: x :: t) := (ih m ht).cons y
      have h3 : (y :: x :: t).Perm (x :: y :: t) := List.Perm.swap _ _ _
      exact (h1.trans h2).trans h3

/-- Writing the value found at `j` into `i` and the value found at `i`
into `j` permutes the list. -/
theorem set_set_perm :
    ∀ (l : List α) (i j : Nat) (a b : α), l.get? i = some a →
      l.get? j = some b → ((l.set i b).set j a).Perm l := by
  intro l
  induction l with
  | nil => intro i j a b h; cases h
  | cons y t ih =>
    intro i j a b ha hb
    cases i with
    | zero =>
      injection ha with ha'
      subst ha'
      cases j with
      | zero =>
        injection hb with hb'
        subst hb'
        exact List.Perm.refl _
      | succ j =>
        exact cons_set_perm b y t j hb
    | succ i =>
      cases j with
      | zero =>
        injection hb with hb'
        subst hb'
        exact cons_set_perm a y t i ha
      | succ j =>
        exact (ih i j a b ha hb).cons y

/-- A `listSwap` permutes the list. -/
theorem listSwap_perm (l : List α) (i j : Nat) : (listSwap l i j).Perm l := by
  rw [listSwap]
  cases hgi : l.get? i with
  | none => exact List.Perm.refl _
  | some vi =>
    cases hgj : l.get? j with
    | none => exact List.Perm.refl _
    | some vj => exact set_set_perm l i j vi vj hgi hgj

/-- The Fisher–Yates loop permutes its input. -/
theorem fyLoop_perm (rand : Nat → Nat) :
    ∀ (i : Nat) (l : List Nat), (fyLoop rand i l).Perm l := by
  intro i
  induction i with
  | zero => intro l; exact List.Perm.refl _
  | succ i ih =>
    intro l
    exact (ih _).trans (listSwap_perm l (i + 1) (rand (i + 1) % (i + 2)))

/-- Rotating a list (the `jumpToIndex` reordering) permutes it. -/
theorem drop_append_take_perm (l : List α) (k : Nat) :
    (l.drop k ++ l.take k).Perm l := by
  conv_rhs => rw [← List.take_append_drop k l]
  exact List.perm_append_comm

/-- `jsFindIndex` returns a position whose element satisfies the test. -/
theorem jsFindIndex_get? (p : α → Bool) :
    ∀ (l : List α) (k : Nat), jsFindIndex p l = some k →
      ∃ a, l.get? k = some a ∧ p a = true := by
  intro l
  induction l with
  | nil => intro k h; cases h
  | cons a t ih =>
    intro k h
    rw [jsFindIndex] at h
    by_cases hp : p a = true
    · rw [if_pos hp] at h
      cases h
      exact ⟨a, rfl, hp⟩
    · rw [if_neg hp] at h
      cases hfi : jsFindIndex p t with
      | none => rw [hfi] at h; cases h
      | some k' =>
        rw [hfi] at h
        cases h
        obtain ⟨b, hb, hpb⟩ := ih k' hfi
        exact ⟨b, hb, hpb⟩

/-- The head of `l.drop k` is the element of `l` at position `k`. -/
theorem head?_drop_eq_get? :
    ∀ (l : List α) (k : Nat), (l.drop k).head? = l.get? k := by
  intro l
  induction l with
  | nil => intro k; cases k <;> rfl
  | cons a t ih =>
    intro k
    cases k with
    | zero => rfl
    | succ k => exact ih k

/-- The head of an append with a nonempty left part. -/
theorem head?_append_left (l t : List α) (h : l ≠ []) :
    (l ++ t).head? = l.head? := by
  cases l with
  | nil => exact absurd rfl h
  | cons a l => rfl

/-- `jumpToIndex` never changes the playlist items. -/
theorem jumpToIndex_items (s : ManagerState) (index : Int) :
    (jumpToIndex s index).items = s.items := by
  simp only [jumpToIndex]
  repeat' split
  all_goals rfl

/-- `jumpToIndex` keeps the shuffle order a permutation of the item
indices. -/
theorem jumpToIndex_order_perm (s : ManagerState) (index : Int)
    (h : s.shuffleOrder.Perm (List.range s.items.length)) :
    (jumpToIndex s index).shuffleOrder.Perm
      (List.range (jumpToIndex s index).items.length) := by
  rw [jumpToIndex_items]
  simp only [jumpToIndex]
  repeat' split
  all_goals first
    | exact h
    | exact (drop_append_take_perm _ _).trans h

/-- After a valid `jumpToIndex` in shuffle mode, the selected index is the
head of the rotated shuffle order. -/
theorem jumpToIndex_shuffle_head (s : ManagerState) (index : Int) (k : Nat)
    (hmode : s.mode = PlaybackMode.shuffle) (h0 : 0 ≤ index)
    (hlt : index < (s.items.length : Int))
    (hfind : jsFindIndex (fun x => x == index.toNat) s.shuffleOrder = some k) :
    (jumpToIndex s index).shuffleOrder.head? = some index.toNat := by
  have hcond : ¬(index < 0 ∨ (s.items.length : Int) ≤ index) := by omega
  obtain ⟨song, hsong⟩ :
      ∃ song, s.items.get? index.toNat = some song := by
    rw [List.get?_eq_get (by omega)]
    exact ⟨_, rfl⟩
  obtain ⟨a, hak, hpa⟩ := jsFindIndex_get? _ _ _ hfind
  have ha : a = index.toNat := by simpa using hpa
  have hklt : k < s.shuffleOrder.length := by
    by_contra hk
    rw [List.get?_eq_none.mpr (by omega)] at hak
    cases hak
  have hdrop : s.shuffleOrder.drop k ≠ [] := by
    intro hnil
    have := List.length_drop k s.shuffleOrder
    rw [hnil] at this
    simp at this
    omega
  simp only [jumpToIndex, if_neg hcond, hsong, hmode, hfind, if_true]
  rw [head?_append_left _ _ hdrop, head?_drop_eq_get?, hak, ha]

/-- C6: the shuffle order is always a permutation of `[0, items.length)`:
Fisher–Yates regeneration produces a permutation of the index range for
every stream of random draws, and `jumpToIndex` keeps the items unchanged,
preserves the permutation property, and moves the selected index to the
head of the order. -/
theorem shuffleOrder_permutation_invariant :
    (∀ (n : Nat) (rand : Nat → Nat),
      (initializeShuffleOrder n rand).Perm (List.range n))
    ∧ (∀ (s : ManagerState) (index : Int),
        (jumpToIndex s index).items = s.items
        ∧ (s.shuffleOrder.Perm (List.range s.items.length) →
            (jumpToIndex s index).shuffleOrder.Perm
              (List.range (jumpToIndex s index).items.length)))
    ∧ (∀ (s : ManagerState) (index : Int) (k : Nat),
        s.mode = PlaybackMode.shuffle → 0 ≤ index →
        index < (s.items.length : Int) →
        jsFindIndex (fun x => x == index.toNat) s.shuffleOrder = some k →
        (jumpToIndex s index).shuffleOrder.head? = some index.toNat) := by
  refine ⟨fun n rand => fyLoop_perm rand (n - 1) (List.range n),
    fun s index => ⟨jumpToIndex_items s index, jumpToIndex_order_perm s index⟩,
    jumpToIndex_shuffle_head⟩

/-- Witness for `shuffleOrder_permutation_invariant`: a concrete
three-element shuffle, and a concrete jump to index 1 in order `[2,0,1]`,
which rotates the order to put 1 at its head while remaining a
permutation. -/
theorem shuffleOrder_permutation_invariant_witness :
    (initializeShuffleOrder 3 (fun i => 5 * i + 1)).Perm (List.range 3)
    ∧ (jumpToIndex
        { items := itemsABC, currentIndex := 0, isPlaying := true
          mode := PlaybackMode.shuffle, repeatFlag := false
          currentSong := some "A", shuffleOrder := [2, 0, 1]
          mounted := true } 1).shuffleOrder.head? = some ((1 : Int)).toNat
    ∧ (jumpToIndex
        { items := itemsABC, currentIndex := 0, isPlaying := true
          mode := PlaybackMode.shuffle, repeatFlag := false
          currentSong := some "A", shuffleOrder := [2, 0, 1]
          mounted := true } 1).shuffleOrder.Perm
        (List.range
          (jumpToIndex
            { items := itemsABC, currentIndex := 0, isPlaying := true
              mode := PlaybackMode.shuffle, repeatFlag := false
              currentSong := some "A", shuffleOrder := [2, 0, 1]
              mounted := true } 1).items.length) := by
  refine ⟨shuffleOrder_permutation_invariant.1 3 (fun i => 5 * i + 1), ?_, ?_⟩
  · exact shuffleOrder_permutation_invariant.2.2
      { items := itemsABC, currentIndex := 0, isPlaying := true
        mode := PlaybackMode.shuffle, repeatFlag := false
        currentSong := some "A", shuffleOrder := [2, 0, 1], mounted := true }
      1 2 rfl (by decide) (by decide) (by decide)
  · exact (shuffleOrder_permutation_invariant.2.1
      { items := itemsABC, currentIndex := 0, isPlaying := true
        mode := PlaybackMode.shuffle, repeatFlag := false
        currentSong := some "A", shuffleOrder := [2, 0, 1], mounted := true }
      1).2 (by decide)

/-! ## Theorems about repeat toggling and mode switching (claim C7) -/

/-- C7, counterexample: toggling `repeat` does NOT reset the session.
`handleRepeatChange` is a bare `updateState({ repeat })`: on a mounted
manager playing item 2, the index stays 2 and playback keeps running,
against the claim's "afterwards currentIndex is 0 and playback is
stopped". -/
theorem handleRepeatChange_no_reset_counterexample :
    (handleRepeatChange
        { items := itemsABC, currentIndex := 2, isPlaying := true
          mode := PlaybackMode.normal, repeatFlag := false
          currentSong := some "C", shuffleOrder := [], mounted := true }
        true).currentIndex = 2
    ∧ (handleRepeatChange
        { items := itemsABC, currentIndex := 2, isPlaying := true
          mode := PlaybackMode.normal, repeatFlag := false
          currentSong := some "C", shuffleOrder := [], mounted := true }
        true).isPlaying = true
    ∧ (handleRepeatChange
        { items := itemsABC, currentIndex := 2, isPlaying := true
          mode := PlaybackMode.normal, repeatFlag := false
          currentSong := some "C", shuffleOrder := [], mounted := true }
        true).currentIndex ≠ 0 := by
  refine ⟨by decide, by decide, by decide⟩

/-- C7 as amended: toggling `repeat` only updates the repeat flag, leaving
`currentIndex` and `isPlaying` (and everything else) unchanged; switching
`mode` on a mounted manager stops playback (`isPlaying = false`) and
resets `currentIndex` to 0 for the non-shuffle modes, while switching to
shuffle generates a fresh permutation of the item indices and sets
`currentIndex` to that permutation's head (not necessarily 0). -/
theorem repeatToggle_and_modeSwitch (s : ManagerState) (r : Bool)
    (newMode : PlaybackMode) (rand : Nat → Nat) (s1 s2 : ManagerState)
    (hmounted : s.mounted = true)
    (hns : newMode ≠ PlaybackMode.shuffle)
    (h1 : handleModeChange s newMode rand = some s1)
    (h2 : handleModeChange s PlaybackMode.shuffle rand = some s2) :
    (handleRepeatChange s r).currentIndex = s.currentIndex
      ∧ (handleRepeatChange s r).isPlaying = s.isPlaying
      ∧ (handleRepeatChange s r).repeatFlag = r
      ∧ s1.currentIndex = 0 ∧ s1.isPlaying = false ∧ s1.mode = newMode
      ∧ s2.isPlaying = false
      ∧ s2.shuffleOrder = initializeShuffleOrder s.items.length rand
      ∧ s2.shuffleOrder.Perm (List.range s.items.length)
      ∧ s2.shuffleOrder.head? = some s2.currentIndex := by
  rw [handleModeChange, if_neg hns] at h1
  rw [if_pos hmounted] at h1
  injection h1 with h1
  simp only [handleModeChange, reduceIte] at h2
  have hperm : (initializeShuffleOrder s.items.length rand).Perm
      (List.range s.items.length) := fyLoop_perm rand _ _
  split at h2
  · cases h2
  · next firstIndex hhead =>
    split at h2
    · cases h2
    · next firstSong hget =>
      rw [if_pos hmounted] at h2
      injection h2 with h2
      subst h1
      subst h2
      refine ⟨?_, ?_, ?_, rfl, rfl, rfl, rfl, rfl, hperm, ?_⟩
      · rw [handleRepeatChange, if_pos hmounted]
      · rw [handleRepeatChange, if_pos hmounted]
      · rw [handleRepeatChange, if_pos hmounted]
      · exact hhead

/-- Witness for `repeatToggle_and_modeSwitch` at a concrete mounted state,
switching to preview and to shuffle with a fixed random stream. -/
theorem repeatToggle_and_modeSwitch_witness :
    (handleRepeatChange
        { items := itemsABC, currentIndex := 2, isPlaying := true
          mode := PlaybackMode.normal, repeatFlag := false
          currentSong := some "C", shuffleOrder := [], mounted := true }
        true).repeatFlag = true
    ∧ (handleRepeatChange
        { items := itemsABC, currentIndex := 2, isPlaying := true
          mode := PlaybackMode.normal, repeatFlag := false
          currentSong := some "C", shuffleOrder := [], mounted := true }
        true).currentIndex
      = ({ items := itemsABC, currentIndex := 2, isPlaying := true
           mode := PlaybackMode.normal, repeatFlag := false
           currentSong := some "C", shuffleOrder := [],
           mounted := true } : ManagerState).currentIndex := by
  have h := repeatToggle_and_modeSwitch
    { items := itemsABC, currentIndex := 2, isPlaying := true
      mode := PlaybackMode.normal, repeatFlag := false
      currentSong := some "C", shuffleOrder := [], mounted := true }
    true PlaybackMode.preview (fun _ => 0)
    { items := itemsABC, currentIndex := 0, isPlaying := false
      mode := PlaybackMode.preview, repeatFlag := false
      currentSong := some "A", shuffleOrder := [], mounted := true }
    { items := itemsABC, currentIndex := 1, isPlaying := false
      mode := PlaybackMode.shuffle, repeatFlag := false
      currentSong := some "B", shuffleOrder := [1, 2, 0], mounted := true }
    rfl (by decide) (by decide) (by decide)
  exact ⟨h.2.2.1, h.1⟩

/-! ## AudioDataManager model (`audio-data/index.tsx`, claims C8 and C9) -/

/-- A JavaScript number as classified by `isFinite`: a finite value
(modelled as `ℚ`) or a non-finite one (`NaN`/`±Infinity`, which the code
only ever tests with `isFinite`). -/
inductive JSVal where
  | fin (q : ℚ)
  | nonfin
deriving DecidableEq

/-- `x || 0` on a number: `NaN` (and, in this collapsed model, the other
non-finite values) becomes 0. -/
def jsOr0 : JSVal → ℚ
  | JSVal.fin q => q
  | JSVal.nonfin => 0

/-- The HTML media element, reduced to the fields the manager reads and
writes: `paused`, `currentTime`, `duration`, the `buffered` ranges, and
whether a `src` is attached. -/
structure AudioElement where
  paused : Bool
  currentTime : ℚ
  duration : JSVal
  buffered : List (ℚ × ℚ)
  srcSet : Bool
deriving DecidableEq

/-- A fresh `new Audio()`: paused, position 0, no metadata, no source. -/
def freshAudio : AudioElement :=
  { paused := true, currentTime := 0, duration := JSVal.nonfin
    buffered := [], srcSet := false }

/-- `AudioCallbacks` (the host's construction-time callbacks), over an
abstract callback type `κ` — the manager only stores and compares them. -/
structure AudioCallbacks (κ : Type) where
  onPlaybackStats : κ
  onBufferingChange : κ
  onBufferProgress : κ
  onAudioDataUpdate : κ
  onSongEnd : κ
deriving DecidableEq

/-- The `AudioDataManager`'s instance state (`audio-data/index.tsx` lines
171–195): the audio element, the `isInitialized`/`isTransitioning` flags,
the tracked listener registrations (by event name), the construction-time
`callbacks`, the buffer-progress debounce state, and the mutable
`onSongEndCallback`. -/
structure AudioDataManager (κ : Type) where
  audio : Option AudioElement
  isInitialized : Bool
  isTransitioning : Bool
  eventListeners : List String
  callbacks : AudioCallbacks κ
  lastBufferUpdate : ℚ
  lastBufferedBytes : ℚ
  onSongEndCallback : Option κ
deriving DecidableEq

/-- `setupAudioListeners` (lines 228–280): remove the tracked listeners,
then register the five handlers. -/
def setupAudioListeners (s : AudioDataManager κ) : AudioDataManager κ :=
  match s.audio with
  | none => s
  | some _ =>
    { s with eventListeners :=
        ["ended", "timeupdate", "waiting", "canplay", "error"] }

/-- `cleanup` (lines 363–406): a no-op when there is no audio element;
otherwise remove all tracked listeners, pause, reset the position to 0,
reset the flags and debounce state, restore the saved `onSongEnd`
callback, detach `src` and `load()` (which resets the element's metadata
and buffered data). -/
def cleanup (s : AudioDataManager κ) : AudioDataManager κ :=
  match s.audio with
  | none => s
  | some audio =>
    let savedCallback := s.onSongEndCallback
    { s with
      eventListeners := []
      audio := some { audio with paused := true, currentTime := 0
                                 srcSet := false, duration := JSVal.nonfin
                                 buffered := [] }
      isInitialized := false
      isTransitioning := false
      lastBufferUpdate := 0
      lastBufferedBytes := 0
      onSongEndCallback := savedCallback }

/-- `loadAudio` (lines 282–345): save the `onSongEnd` callback, create the
element if needed, `cleanup`, restore the callback, attach the new `src`,
and await the load; `loadOk` is the outcome of the awaited
`loadeddata`/`error` race.  On success, listeners are re-registered and
`isInitialized` becomes true; on failure, `cleanup` runs again and the
error is re-thrown (the returned `Bool` is true when the call throws). -/
def loadAudio (s : AudioDataManager κ) (path : String) (loadOk : Bool) :
    AudioDataManager κ × Bool :=
  let savedCallback := s.onSongEndCallback
  let s0 := match s.audio with
    | none => { s with audio := some freshAudio }
    | some _ => s
  let s1 := cleanup s0
  let s2 := { s1 with onSongEndCallback := savedCallback }
  let s3 := match s2.audio with
    | some a => { s2 with audio := some { a with srcSet := true } }
    | none => s2
  if loadOk then
    ({ setupAudioListeners s3 with isInitialized := true }, false)
  else
    (cleanup s3, true)

/-- The `onSongEnd` setter (lines 205–207). -/
def setOnSongEnd (s : AudioDataManager κ) (cb : Option κ) :
    AudioDataManager κ :=
  { s with onSongEndCallback := cb }

/-- `play` (lines 484–500): `audio.play()`, which un-pauses. -/
def play (s : AudioDataManager κ) : AudioDataManager κ :=
  match s.audio with
  | none => s
  | some a => { s with audio := some { a with paused := false } }

/-- The state effects of `refreshPlaybackState` (lines 528–608): when
initialized with an element, recompute the buffer progress
(`latestBufferEnd / duration * 100`) and commit the debounce fields when
more than 1000 ms passed or the progress moved by more than 5 points.
(The callback invocations carry no state; rationals stand in for doubles,
with division by zero yielding 0.) -/
def refreshPlaybackState (s : AudioDataManager κ) (now : ℚ) :
    AudioDataManager κ :=
  if s.isInitialized = false then s
  else
    match s.audio with
    | none => s
    | some audio =>
      let duration := jsOr0 audio.duration
      let bufferProgress :=
        match audio.buffered.getLast? with
        | some r => r.2 / duration * 100
        | none => 0
      if 1000 < now - s.lastBufferUpdate
          ∨ 5 < |bufferProgress - s.lastBufferedBytes| then
        { s with lastBufferUpdate := now, lastBufferedBytes := bufferProgress }
      else s

/-- `seek` (lines 408–482).  Returns unchanged (only logging) when not
initialized, when there is no element, or when the time or duration is
non-finite.  Otherwise clamps the target into `[0, duration]`; on the
buffered path it sets `currentTime` directly, on the unbuffered path it
reloads and sets `currentTime` from the `canplay` handler — either way the
element ends at the clamped time — then resumes playback if it was
playing, and refreshes the playback state (`now` models `Date.now()`
there). -/
def seek (s : AudioDataManager κ) (time : JSVal) (now : ℚ) :
    AudioDataManager κ :=
  if s.isInitialized = false then s
  else
    match s.audio with
    | none => s
    | some audio =>
      let wasPlaying := !audio.paused
      match time, audio.duration with
      | JSVal.fin t, JSVal.fin dur =>
        let clampedTime := max 0 (min t dur)
        let hasBufferedData := audio.buffered.any fun r =>
          decide (r.1 ≤ clampedTime) && decide (clampedTime ≤ r.2)
        let audio1 :=
          if hasBufferedData then
            -- direct seek: `audio.currentTime = clampedTime`
            { audio with currentTime := clampedTime }
          else
            -- unbuffered seek: detach `timeupdate`, `load()`, then the
            -- `canplay` handler runs `audio.currentTime = clampedTime`
            -- and the listener is reattached — same net element state
            { audio with currentTime := clampedTime }
        let s1 := { s with audio := some audio1 }
        let s2 := if wasPlaying then play s1 else s1
        refreshPlaybackState s2 now
      | _, _ => s

/-! ## Theorems about `seek` (claim C8) -/

/-- `refreshPlaybackState` never touches the audio element. -/
theorem refreshPlaybackState_audio (s : AudioDataManager κ) (now : ℚ) :
    (refreshPlaybackState s now).audio = s.audio := by
  simp only [refreshPlaybackState]
  repeat' split
  all_goals rfl

/-- C8: `seek` is a no-op (no throw, no state change) when the session is
not initialized, when there is no element, or when the time or the
duration is non-finite; otherwise the element's final position is the
clamped `max 0 (min time duration)`, which lies in `[0, duration]` even
for negative or overlarge requests. -/
theorem seek_clamps_into_duration (s : AudioDataManager κ) (time : JSVal)
    (now : ℚ) :
    (s.isInitialized = false → seek s time now = s)
    ∧ (s.audio = none → seek s time now = s)
    ∧ (time = JSVal.nonfin → seek s time now = s)
    ∧ (∀ a, s.audio = some a → a.duration = JSVal.nonfin →
        seek s time now = s)
    ∧ (∀ a t dur, s.isInitialized = true → s.audio = some a →
        time = JSVal.fin t → a.duration = JSVal.fin dur → 0 ≤ dur →
        ∃ a', (seek s time now).audio = some a'
          ∧ a'.currentTime = max 0 (min t dur)
          ∧ 0 ≤ a'.currentTime ∧ a'.currentTime ≤ dur) := by
  refine ⟨?_, ?_, ?_, ?_, ?_⟩
  · intro h
    rw [seek, if_pos h]
  · intro h
    simp only [seek, h]
    split
    · rfl
    · rfl
  · intro h
    subst h
    simp only [seek]
    repeat' split
    all_goals rfl
  · intro a haud hd
    simp only [seek, haud, hd]
    repeat' split
    all_goals rfl
  · intro a t dur hinit haud ht hd hdur
    subst ht
    have hc1 : 0 ≤ max 0 (min t dur) := le_max_left 0 (min t dur)
    have hc2 : max 0 (min t dur) ≤ dur :=
      max_le hdur (min_le_right t dur)
    simp only [seek, hinit, haud, hd, Bool.true_eq_false, if_false, ite_self]
    rw [refreshPlaybackState_audio]
    by_cases hp : (!a.paused) = true
    · rw [if_pos hp]
      exact ⟨_, rfl, rfl, hc1, hc2⟩
    · rw [if_neg hp]
      exact ⟨_, rfl, rfl, hc1, hc2⟩

/-- Witness for `seek_clamps_into_duration`: an initialized session with a
100-second track; seeking to 500 lands on 100, inside `[0, 100]`. -/
theorem seek_clamps_into_duration_witness :
    ∃ a', (seek
        ({ audio := some { paused := true, currentTime := 7
                           duration := JSVal.fin 100, buffered := [(0, 30)]
                           srcSet := true }
           isInitialized := true, isTransitioning := false
           eventListeners := ["ended", "timeupdate", "waiting", "canplay", "error"]
           callbacks := ⟨0, 1, 2, 3, 4⟩
           lastBufferUpdate := 0, lastBufferedBytes := 0
           onSongEndCallback := some 4 } : AudioDataManager Nat)
        (JSVal.fin 500) 0).audio = some a'
      ∧ a'.currentTime = max 0 (min 500 100)
      ∧ 0 ≤ a'.currentTime ∧ a'.currentTime ≤ 100 :=
  (seek_clamps_into_duration
    ({ audio := some { paused := true, currentTime := 7
                       duration := JSVal.fin 100, buffered := [(0, 30)]
                       srcSet := true }
       isInitialized := true, isTransitioning := false
       eventListeners := ["ended", "timeupdate", "waiting", "canplay", "error"]
       callbacks := ⟨0, 1, 2, 3, 4⟩
       lastBufferUpdate := 0, lastBufferedBytes := 0
       onSongEndCallback := some 4 } : AudioDataManager Nat)
    (JSVal.fin 500) 0).2.2.2.2
    { paused := true, currentTime := 7, duration := JSVal.fin 100
      buffered := [(0, 30)], srcSet := true }
    500 100 rfl rfl rfl rfl (by decide)

/-! ## Theorems about callback survival across resets (claim C9) -/

/-- `setupAudioListeners` does not touch the stored `onSongEnd`. -/
theorem setupAudioListeners_onSongEnd (s : AudioDataManager κ) :
    (setupAudioListeners s).onSongEndCallback = s.onSongEndCallback := by
  simp only [setupAudioListeners]
  split
  · rfl
  · rfl

/-- `setupAudioListeners` does not touch the construction callbacks. -/
theorem setupAudioListeners_callbacks (s : AudioDataManager κ) :
    (setupAudioListeners s).callbacks = s.callbacks := by
  simp only [setupAudioListeners]
  split
  · rfl
  · rfl

/-- C9, counterexample: a successful `loadAudio` does not leave the
manager in the reset state the claim describes — it ends with
`isInitialized = true` and the five listeners re-registered, not with
`isInitialized = false` and no listeners. -/
theorem loadAudio_reinitializes_counterexample :
    (loadAudio
        ({ audio := some freshAudio, isInitialized := false
           isTransitioning := false, eventListeners := []
           callbacks := ⟨0, 1, 2, 3, 4⟩, lastBufferUpdate := 0
           lastBufferedBytes := 0
           onSongEndCallback := some 4 } : AudioDataManager Nat)
        "a.wav" true).1.isInitialized = true
    ∧ (loadAudio
        ({ audio := some freshAudio, isInitialized := false
           isTransitioning := false, eventListeners := []
           callbacks := ⟨0, 1, 2, 3, 4⟩, lastBufferUpdate := 0
           lastBufferedBytes := 0
           onSongEndCallback := some 4 } : AudioDataManager Nat)
        "a.wav" true).1.eventListeners ≠ [] := by
  refine ⟨by decide, by decide⟩

/-- C9 as amended: `cleanup` resets `isInitialized`/`isTransitioning` to
false, the position to 0 and the tracked listener list to empty, while
preserving the stored `onSongEnd` and the construction callbacks;
`loadAudio` performs that reset internally and equally preserves both, but
on success it re-registers the five listeners and ends with
`isInitialized = true` (on failure it ends reset); replacing `onSongEnd`
at runtime leaves the construction callbacks intact. -/
theorem onSongEnd_survives_reset (s : AudioDataManager κ) (path : String)
    (ok : Bool) (cb : Option κ) :
    (cleanup s).onSongEndCallback = s.onSongEndCallback
    ∧ (cleanup s).callbacks = s.callbacks
    ∧ (s.audio ≠ none →
        (cleanup s).isInitialized = false
        ∧ (cleanup s).isTransitioning = false
        ∧ (cleanup s).eventListeners = []
        ∧ ∃ a, (cleanup s).audio = some a ∧ a.currentTime = 0)
    ∧ (loadAudio s path ok).1.onSongEndCallback = s.onSongEndCallback
    ∧ (loadAudio s path ok).1.callbacks = s.callbacks
    ∧ (ok = false →
        (loadAudio s path ok).1.isInitialized = false
        ∧ (loadAudio s path ok).1.isTransitioning = false
        ∧ (loadAudio s path ok).1.eventListeners = [])
    ∧ (ok = true →
        (loadAudio s path ok).1.isInitialized = true
        ∧ (loadAudio s path ok).1.isTransitioning = false
        ∧ (loadAudio s path ok).1.eventListeners
          = ["ended", "timeupdate", "waiting", "canplay", "error"]
        ∧ ∃ a, (loadAudio s path ok).1.audio = some a ∧ a.currentTime = 0)
    ∧ (setOnSongEnd s cb).callbacks = s.callbacks
    ∧ (setOnSongEnd s cb).onSongEndCallback = cb := by
  refine ⟨?_, ?_, ?_, ?_, ?_, ?_, ?_, rfl, rfl⟩
  · cases haud : s.audio <;> simp [cleanup, haud]
  · cases haud : s.audio <;> simp [cleanup, haud]
  · intro h
    cases haud : s.audio with
    | none => exact absurd haud h
    | some a =>
      refine ⟨?_, ?_, ?_, ?_⟩ <;> simp [cleanup, haud]
  · cases haud : s.audio <;> cases ok <;>
      simp [loadAudio, cleanup, setupAudioListeners, haud]
  · cases haud : s.audio <;> cases ok <;>
      simp [loadAudio, cleanup, setupAudioListeners, haud]
  · intro h
    subst h
    cases haud : s.audio <;>
      refine ⟨?_, ?_, ?_⟩ <;> simp [loadAudio, cleanup, haud]
  · intro h
    subst h
    cases haud : s.audio <;>
      refine ⟨?_, ?_, ?_, ?_⟩ <;>
        simp [loadAudio, cleanup, setupAudioListeners, haud]

/-- Witness for `onSongEnd_survives_reset`: a concrete initialized session
whose `onSongEnd` (labelled `4`) and construction callbacks survive
`cleanup` and both outcomes of `loadAudio`. -/
theorem onSongEnd_survives_reset_witness :
    (cleanup
        ({ audio := some { paused := false, currentTime := 9
                           duration := JSVal.fin 100, buffered := [(0, 30)]
                           srcSet := true }
           isInitialized := true, isTransitioning := false
           eventListeners := ["ended", "timeupdate", "waiting", "canplay", "error"]
           callbacks := ⟨0, 1, 2, 3, 4⟩, lastBufferUpdate := 3
           lastBufferedBytes := 20
           onSongEndCallback := some 4 } : AudioDataManager Nat)).onSongEndCallback
      = some 4
    ∧ (loadAudio
        ({ audio := some { paused := false, currentTime := 9
                           duration := JSVal.fin 100, buffered := [(0, 30)]
                           srcSet := true }
           isInitialized := true, isTransitioning := false
           eventListeners := ["ended", "timeupdate", "waiting", "canplay", "error"]
           callbacks := ⟨0, 1, 2, 3, 4⟩, lastBufferUpdate := 3
           lastBufferedBytes := 20
           onSongEndCallback := some 4 } : AudioDataManager Nat)
        "b.wav" false).1.isInitialized = false
    ∧ (loadAudio
        ({ audio := some { paused := false, currentTime := 9
                           duration := JSVal.fin 100, buffered := [(0, 30)]
                           srcSet := true }
           isInitialized := true, isTransitioning := false
           eventListeners := ["ended", "timeupdate", "waiting", "canplay", "error"]
           callbacks := ⟨0, 1, 2, 3, 4⟩, lastBufferUpdate := 3
           lastBufferedBytes := 20
           onSongEndCallback := some 4 } : AudioDataManager Nat)
        "b.wav" false).1.callbacks = ⟨0, 1, 2, 3, 4⟩ := by
  have h := onSongEnd_survives_reset
    ({ audio := some { paused := false, currentTime := 9
                       duration := JSVal.fin 100, buffered := [(0, 30)]
                       srcSet := true }
       isInitialized := true, isTransitioning := false
       eventListeners := ["ended", "timeupdate", "waiting", "canplay", "error"]
       callbacks := ⟨0, 1, 2, 3, 4⟩, lastBufferUpdate := 3
       lastBufferedBytes := 20
       onSongEndCallback := some 4 } : AudioDataManager Nat)
    "b.wav" false none
  exact ⟨h.1, (h.2.2.2.2.2.1 rfl).1, h.2.2.2.2.1⟩
